import Mathlib

/-!
Verification development for the Peep observability daemon: a shallow
embedding of the alert-evaluation, notification-dispatch and log-retention
core (Go sources `internal/alerts`, `internal/storage/retention.go`,
`internal/notifications/slack.go`), together with theorems settling the
specification claims about that core.

Machine integers are modelled as `Int` (no arithmetic here approaches
64-bit overflow), wall-clock instants and durations as `Int` nanoseconds
(Go's `time.Duration` unit), SQL result sets as `List (List Int)`, and the
`map[string]string` channel configuration as an association list.
-/

/-! ## Retention manager (`internal/storage/retention.go`) -/

/-- One row of the `logs` table, restricted to the columns the retention
manager reads (`id`, `timestamp`).  The table itself is modelled as a
`List LogRow`; row order in the list carries no meaning. -/
structure LogRow where
  id : Int
  timestamp : Int
deriving DecidableEq

/-- Go struct `RetentionConfig`.  `maxAge` is a duration in the same time
unit as `LogRow.timestamp`; `maxSizeMB` is Go's `float64` modelled as an
exact rational. -/
structure RetentionConfig where
  maxLogs : Int
  maxAge : Int
  maxSizeMB : ℚ
  checkInterval : Int
  enabled : Bool
deriving DecidableEq

/-- Insert one row into a list kept in timestamp-descending order
(auxiliary for `sortByTimestampDesc`). -/
def insertTsDesc (r : LogRow) : List LogRow → List LogRow
  | [] => [r]
  | x :: xs => if x.timestamp < r.timestamp then r :: x :: xs else x :: insertTsDesc r xs

/-- Sort rows by `timestamp` descending: the order `ORDER BY timestamp DESC`
produces in `cleanupByCount`'s inner `SELECT`. -/
def sortByTimestampDesc : List LogRow → List LogRow
  | [] => []
  | x :: xs => insertTsDesc x (sortByTimestampDesc xs)

/-- Go `cleanupByCount`: `DELETE FROM logs WHERE id NOT IN (SELECT id FROM
logs ORDER BY timestamp DESC LIMIT MaxLogs)`.  The kept rows are exactly
the `MaxLogs` most recent by timestamp; the second component is the
`RowsAffected` count of deleted rows. -/
def cleanupByCount (cfg : RetentionConfig) (rows : List LogRow) : List LogRow × Int :=
  let kept := (sortByTimestampDesc rows).take cfg.maxLogs.toNat
  (kept, (rows.length : Int) - kept.length)

/-- Go `cleanupByAge`: `DELETE FROM logs WHERE timestamp < cutoff` with
`cutoff = now - MaxAge`; returns kept rows and the deleted-row count. -/
def cleanupByAge (cfg : RetentionConfig) (rows : List LogRow) (now : Int) :
    List LogRow × Int :=
  let cutoff := now - cfg.maxAge
  let kept := rows.filter (fun r => !(r.timestamp < cutoff))
  (kept, (rows.length : Int) - kept.length)

/-- Go `getDatabaseSizeMB`: size estimated as 350 bytes per row, reported
in MB (`float64` modelled as an exact rational). -/
def estimatedSizeMB (rows : List LogRow) : ℚ :=
  ((rows.length : ℚ) * 350) / (1024 * 1024)

/-- Go `shouldCleanup`, keeping only the boolean component (the reason
string is dropped).  The three checks appear in source order: row count,
database size, age. -/
def shouldCleanup (cfg : RetentionConfig) (rows : List LogRow) (now : Int) : Bool :=
  (decide (0 < cfg.maxLogs) && decide (cfg.maxLogs < (rows.length : Int)))
  || (decide (0 < cfg.maxSizeMB) && decide (cfg.maxSizeMB < estimatedSizeMB rows))
  || (decide (0 < cfg.maxAge) && rows.any (fun r => r.timestamp < now - cfg.maxAge))

/-- Go `performCleanup`: return unchanged when `shouldCleanup` is false;
otherwise run `cleanupByCount` when `MaxLogs > 0`, else `cleanupByAge`
when `MaxAge > 0` (the `VACUUM` step mutates no rows and is omitted).
Result: the surviving `logs` rows and the deleted-row count. -/
def performCleanup (cfg : RetentionConfig) (rows : List LogRow) (now : Int) :
    List LogRow × Int :=
  if !(shouldCleanup cfg rows now) then (rows, 0)
  else if 0 < cfg.maxLogs then cleanupByCount cfg rows
  else if 0 < cfg.maxAge then cleanupByAge cfg rows now
  else (rows, 0)

/-! ## Scalar evaluation primitive (`evaluateRule`'s `QueryRow(...).Scan(&count)`) -/

/-- The engine's scalar read, `e.db.QueryRow(timeQuery).Scan(&count)`,
applied to a materialized result set.  Per `database/sql` semantics:
`Row.Scan` returns `ErrNoRows` on an empty result, errors when the column
count differs from the one destination argument, and otherwise scans the
first row and discards any remaining rows. -/
def runScalar (rows : List (List Int)) : Except String Int :=
  match rows with
  | [] => Except.error "sql: no rows in result set"
  | row :: _ =>
    match row with
    | [v] => Except.ok v
    | _ => Except.error
        ("sql: expected " ++ toString row.length ++ " destination arguments in Scan, not 1")

/-- Outcome of `QueryRow(sql).Scan(&count)` given the outcome of running
`sql` itself: a SQL-level failure (e.g. a syntax error) propagates, and a
successful result set goes through `runScalar`. -/
def scanCount (qres : Except String (List (List Int))) : Except String Int :=
  match qres with
  | Except.error e => Except.error e
  | Except.ok rows => runScalar rows

/-! ## Time-window composition (`buildTimeQuery`, Go `time.ParseDuration`) -/

/-- Nanoseconds-per-unit table for Go duration suffixes, ordered so that
two-letter units are tried before their one-letter suffixes. -/
def durationUnits : List (List Char × Int) :=
  [("ns".toList, 1), ("us".toList, 1000), ("ms".toList, 1000000),
   ("s".toList, 1000000000), ("m".toList, 60000000000), ("h".toList, 3600000000000)]

/-- Decimal digits to a natural number. -/
def digitsToNat (ds : List Char) : Nat :=
  ds.foldl (fun n c => 10 * n + (c.toNat - '0'.toNat)) 0

/-- Match a duration-unit suffix at the head of the input, returning its
nanosecond multiplier and the rest of the input. -/
def matchUnit (cs : List Char) : Option (Int × List Char) :=
  (durationUnits.find? (fun u => u.1.isPrefixOf cs)).map
    (fun u => (u.2, cs.drop u.1.length))

/-- Parse a nonempty sequence of `<digits><unit>` duration segments,
summing their nanosecond values.  `fuel` bounds the recursion and is
instantiated with the input length. -/
def parseSegments : Nat → List Char → Option Int
  | _, [] => some 0
  | 0, _ => none
  | fuel + 1, cs =>
    let digits := cs.takeWhile Char.isDigit
    if digits.isEmpty then none
    else
      match matchUnit (cs.dropWhile Char.isDigit) with
      | none => none
      | some (mult, rest) =>
        match parseSegments fuel rest with
        | none => none
        | some v => some ((digitsToNat digits : Int) * mult + v)

/-- Go `time.ParseDuration`, restricted to integer components: an optional
sign, then either the literal `0` or one or more `<digits><unit>` segments
with units `ns`, `us`, `ms`, `s`, `m`, `h`; result in nanoseconds, `none`
on malformed input.  (Fractional components, which no claim depends on,
are not modelled.) -/
def parseDuration (s : String) : Option Int :=
  match s.toList with
  | [] => none
  | cs =>
    let signAndRest : Int × List Char :=
      match cs with
      | '-' :: r => (-1, r)
      | '+' :: r => (1, r)
      | r => (1, r)
    if signAndRest.2 = ['0'] then some 0
    else (parseSegments signAndRest.2.length signAndRest.2).map
      (fun v => signAndRest.1 * v)

/-- `5 * time.Minute`, the fallback window in `buildTimeQuery`. -/
def fiveMinutes : Int := 5 * 60 * 1000000000

/-- The window duration `buildTimeQuery` actually uses: the parsed window,
or five minutes when parsing fails. -/
def windowDuration (window : String) : Int :=
  (parseDuration window).getD fiveMinutes

/-- Is `needle` a contiguous subsequence of `hay`?  Models Go
`strings.Contains`. -/
def containsSeq (needle : List Char) : List Char → Bool
  | [] => needle.isEmpty
  | c :: rest => needle.isPrefixOf (c :: rest) || containsSeq needle rest

/-- Go `containsWhere`: `strings.Contains(strings.ToUpper(query), "WHERE")`
(a case-insensitive substring check; the queries concerned are ASCII, where
Go's `ToUpper` is `Char.toUpper` pointwise). -/
def containsWhere (query : String) : Bool :=
  containsSeq "WHERE".toList (query.toList.map Char.toUpper)

/-- Rendering of the cutoff instant into the composed SQL text.  Go
formats it as a local-time `"2006-01-02 15:04:05"` string; the claims
depend only on which instant is rendered, so the embedding renders the
instant's numeric value (an injective image of the same data). -/
def formatTimestamp (t : Int) : String := toString t

/-- Go `buildTimeQuery`: append the time-window predicate to the rule
query, introduced by `WHERE` when the query has no `WHERE` yet and by
`AND` otherwise. -/
def buildTimeQuery (query window : String) (now : Int) : String :=
  let since := now - windowDuration window
  if !(containsWhere query) then
    query ++ " WHERE timestamp >= \x27" ++ formatTimestamp since ++ "\x27"
  else
    query ++ " AND timestamp >= \x27" ++ formatTimestamp since ++ "\x27"

/-- Modelled from the spec: `query already contains the token WHERE
(case-insensitive)` — the word `WHERE` delimited by non-identifier
characters or the string ends, after uppercasing.  Used only to state
claim C5 as written; the code itself uses `containsWhere`. -/
def containsWhereToken (query : String) : Bool :=
  (((query.toList.map Char.toUpper).splitOnP
      (fun c => !(c.isAlphanum || c == '_'))).filter
    (fun t => !t.isEmpty)).contains "WHERE".toList

/-! ## Alert engine data model (`internal/alerts/engine.go`) -/

/-- Go struct `AlertRule`.  Times (`createdAt`, `lastCheck`, `lastAlert`)
are instants in the common `Int` time scale. -/
structure AlertRule where
  id : Int
  name : String
  description : String
  query : String
  threshold : Int
  window : String
  enabled : Bool
  createdAt : Int
  lastCheck : Int
  lastAlert : Int
deriving DecidableEq

/-- Go struct `AlertInstance`. -/
structure AlertInstance where
  id : Int
  ruleId : Int
  ruleName : String
  count : Int
  threshold : Int
  query : String
  firedAt : Int
  resolved : Bool
deriving DecidableEq

/-- Go struct `NotificationChannel`; the `map[string]string` config is an
association list. -/
structure NotificationChannel where
  id : Int
  name : String
  type : String
  config : List (String × String)
  enabled : Bool
deriving DecidableEq

/-- One row of `alert_notifications` as written by `logNotification`
(`sent_at` is a store-side default and carries no engine data). -/
structure NotificationRow where
  alertId : Int
  channelId : Int
  success : Bool
  errorMessage : String
deriving DecidableEq

/-- The outward transports (OS notifier, HTTP webhook, SMTP, subprocess)
abstracted as outcome functions: `none` is success, `some msg` failure
with that error message.  The engine code under verification is
parametric in these outcomes. -/
structure TransportEnv where
  desktop : AlertInstance → NotificationChannel → Option String
  slack : String → AlertInstance → NotificationChannel → Option String
  email : AlertInstance → NotificationChannel → Option String
  shell : String → AlertInstance → NotificationChannel → Option String

/-- Go `sendSlackNotification`: fails up front when `webhook_url` is
absent from the channel config, otherwise performs the webhook send. -/
def sendSlackModel (env : TransportEnv) (inst : AlertInstance)
    (ch : NotificationChannel) : Option String :=
  match ch.config.lookup "webhook_url" with
  | none => some "slack channel missing webhook_url in config"
  | some url => env.slack url inst ch

/-- Go `sendShellNotification`: fails up front when `script_path` is
absent, otherwise executes the script (timeout/args/env handling changes
only the transport call, not the outcome shape). -/
def sendShellModel (env : TransportEnv) (inst : AlertInstance)
    (ch : NotificationChannel) : Option String :=
  match ch.config.lookup "script_path" with
  | none => some "shell channel missing script_path in config"
  | some p => env.shell p inst ch

/-- Go `logNotification`: one `alert_notifications` row per call, with
`success = (err == nil)` and the error text (empty on success). -/
def logNotification (alertId channelId : Int) (err : Option String) : NotificationRow :=
  { alertId := alertId, channelId := channelId,
    success := err.isNone, errorMessage := err.getD "" }

/-- Go `sendNotification`: dispatch on `channel.Type` (the Go `switch`
rendered as an equality chain), then record exactly one audit row whatever
the outcome. -/
def sendNotification (env : TransportEnv) (inst : AlertInstance)
    (ch : NotificationChannel) : NotificationRow :=
  let err : Option String :=
    if ch.type = "desktop" then env.desktop inst ch
    else if ch.type = "slack" then sendSlackModel env inst ch
    else if ch.type = "email" then env.email inst ch
    else if ch.type = "shell" then sendShellModel env inst ch
    else some ("unknown notification type: " ++ ch.type)
  logNotification inst.id ch.id err

/-- Result of `fireAlert`: the updated rule, the persisted instance, and
the audit rows written while fanning out. -/
structure FireResult where
  rule : AlertRule
  inst : AlertInstance
  notifs : List NotificationRow

/-- Go `fireAlert`: build the instance (denormalized name/query, the
store-assigned id `newId`, `fired_at = now`), update the rule's
`last_alert`, then send to every enabled channel, one audit row each. -/
def fireAlert (env : TransportEnv) (newId : Int) (rule : AlertRule)
    (count now : Int) (channels : List NotificationChannel) : FireResult :=
  let inst : AlertInstance :=
    { id := newId, ruleId := rule.id, ruleName := rule.name, count := count,
      threshold := rule.threshold, query := rule.query, firedAt := now,
      resolved := false }
  let rule2 := { rule with lastAlert := now }
  { rule := rule2, inst := inst,
    notifs := (channels.filter (fun c => c.enabled)).map
      (fun ch => sendNotification env inst ch) }

/-- Result of one `evaluateRule` call: the rule as left in memory, the
alert instance fired on this tick (if any), the audit rows written, and
the returned error, if any. -/
structure EvalResult where
  rule : AlertRule
  fired : Option AlertInstance
  notifs : List NotificationRow
  outcome : Except String Unit

/-- Go `evaluateRule`: scan the scalar count from the time-bounded query
(`qres` is the outcome of running that SQL); on scan failure return the
error with nothing updated; on success set `last_check := now` and fire
when `count >= threshold`. -/
def evaluateRule (env : TransportEnv) (newId : Int) (rule : AlertRule)
    (qres : Except String (List (List Int))) (now : Int)
    (channels : List NotificationChannel) : EvalResult :=
  match scanCount qres with
  | Except.error e => { rule := rule, fired := none, notifs := [], outcome := Except.error e }
  | Except.ok count =>
    let rule1 := { rule with lastCheck := now }
    if rule1.threshold ≤ count then
      let fr := fireAlert env newId rule1 count now channels
      { rule := fr.rule, fired := some fr.inst, notifs := fr.notifs,
        outcome := Except.ok () }
    else
      { rule := rule1, fired := none, notifs := [], outcome := Except.ok () }

/-! ## Channel registration (`AddNotificationChannel`) -/

/-- The engine's channel state: the in-memory cache `channels` and the
persisted `notification_channels` table, plus the next store-assigned id. -/
structure EngineChannels where
  channels : List NotificationChannel
  table : List NotificationChannel
  nextId : Int
deriving DecidableEq

/-- Go `AddNotificationChannel`: marshal the config (which cannot fail for
a string map), insert into `notification_channels` — the only failure the
store can raise here is the `UNIQUE` constraint on `name` — then put the
channel, with its assigned id, into the in-memory cache.  No config-key
validation is performed. -/
def addNotificationChannel (st : EngineChannels) (ch : NotificationChannel) :
    Except String EngineChannels :=
  if st.table.any (fun c => c.name == ch.name) then
    Except.error "UNIQUE constraint failed: notification_channels.name"
  else
    let ch2 := { ch with id := st.nextId }
    Except.ok { channels := st.channels ++ [ch2], table := st.table ++ [ch2],
                nextId := st.nextId + 1 }

/-! ## Severity rendering (`internal/notifications/slack.go`) -/

/-- Go `getAlertColor`: the webhook attachment color from the
count/threshold ratio (`float64` division modelled as exact rational
division, with the intermediate `ratio` variable inlined; the claims
quantify over counts far below any rounding boundary). -/
def getAlertColor (count threshold : Int) : String :=
  if (3 : ℚ) ≤ (count : ℚ) / (threshold : ℚ) then "danger"
  else if (2 : ℚ) ≤ (count : ℚ) / (threshold : ℚ) then "warning"
  else if (3 / 2 : ℚ) ≤ (count : ℚ) / (threshold : ℚ) then "#ffcc00"
  else "good"

/-- Go `getSeverityText`: the human severity label from the same
count/threshold ratio, modelled the same way. -/
def getSeverityText (count threshold : Int) : String :=
  if (3 : ℚ) ≤ (count : ℚ) / (threshold : ℚ) then "🔴 Critical"
  else if (2 : ℚ) ≤ (count : ℚ) / (threshold : ℚ) then "🟠 High"
  else if (3 / 2 : ℚ) ≤ (count : ℚ) / (threshold : ℚ) then "🟡 Medium"
  else "🟢 Low"

/-! ## Sample values used by counterexamples and witnesses -/

/-- A transport environment in which every outward send succeeds. -/
def noopEnv : TransportEnv :=
  { desktop := fun _ _ => none, slack := fun _ _ _ => none,
    email := fun _ _ => none, shell := fun _ _ _ => none }

/-- A sample enabled rule (threshold 1, never yet checked). -/
def sampleRule : AlertRule :=
  { id := 1, name := "Errs", description := "", query := "SELECT COUNT(*) FROM logs",
    threshold := 1, window := "5m", enabled := true,
    createdAt := 0, lastCheck := 0, lastAlert := 0 }

/-- A sample alert instance. -/
def sampleInstance : AlertInstance :=
  { id := 9, ruleId := 1, ruleName := "Errs", count := 3, threshold := 1,
    query := "SELECT COUNT(*) FROM logs", firedAt := 100, resolved := false }

/-- A sample retention configuration with both the count policy
(`MaxLogs = 2`) and the age policy (`MaxAge = 10`) enabled. -/
def sampleRetention : RetentionConfig := ⟨2, 10, 0, 600, true⟩

/-- A sample logs table: three rows, two of them older than the age
cutoff `100 - 10`. -/
def sampleLogs : List LogRow := [⟨1, 50⟩, ⟨2, 60⟩, ⟨3, 95⟩]

/-- C1 (counterexample): with `MaxLogs = 2` and `MaxAge = 10` both
enabled, the sweep at `now = 100` over rows stamped 50, 60, 95 deletes one
row, yet a surviving row (timestamp 60) is older than the cutoff 90 — the
post-sweep state violates the enabled `MaxAge` policy. -/
theorem c1_counterexample :
    1 ≤ (performCleanup sampleRetention sampleLogs 100).2 ∧
    0 < sampleRetention.maxAge ∧
    ¬(∀ r ∈ (performCleanup sampleRetention sampleLogs 100).1,
        ¬(r.timestamp < 100 - sampleRetention.maxAge)) := by decide

/-- C1 (amended): a sweep that deletes at least one row leaves the state
satisfying the policy that actually ran: the row count is at most
`MaxLogs` whenever `MaxLogs > 0`, and no surviving row is older than the
cutoff whenever the age policy ran (`MaxLogs = 0` and `MaxAge > 0`).
When both policies are enabled only the count bound is guaranteed. -/
theorem c1_sweep_enforces_active_policy (cfg : RetentionConfig)
    (rows : List LogRow) (now : Int)
    (h : 1 ≤ (performCleanup cfg rows now).2) :
    (0 < cfg.maxLogs →
      (((performCleanup cfg rows now).1.length : Int) ≤ cfg.maxLogs)) ∧
    (cfg.maxLogs ≤ 0 → 0 < cfg.maxAge →
      ∀ r ∈ (performCleanup cfg rows now).1,
        now - cfg.maxAge ≤ r.timestamp) := by
  unfold performCleanup at h ⊢
  split_ifs at h ⊢ with h1 h2 h3
  · simp at h
  · constructor
    · intro _
      have hl := List.length_take_le cfg.maxLogs.toNat (sortByTimestampDesc rows)
      simp only [cleanupByCount]
      omega
    · intro hle _
      omega
  · constructor
    · intro hpos
      omega
    · intro _ _ r hr
      simp only [cleanupByAge, List.mem_filter, Bool.not_eq_true', decide_eq_false_iff_not,
        not_lt] at hr
      omega
  · simp at h

/-- C1 (witness for the amended theorem): the sample sweep deletes one row
and the conclusion holds for it. -/
theorem c1_witness :
    1 ≤ (performCleanup sampleRetention sampleLogs 100).2 ∧
    ((0 < sampleRetention.maxLogs →
        (((performCleanup sampleRetention sampleLogs 100).1.length : Int)
          ≤ sampleRetention.maxLogs)) ∧
      (sampleRetention.maxLogs ≤ 0 → 0 < sampleRetention.maxAge →
        ∀ r ∈ (performCleanup sampleRetention sampleLogs 100).1,
          100 - sampleRetention.maxAge ≤ r.timestamp)) :=
  ⟨by decide, c1_sweep_enforces_active_policy sampleRetention sampleLogs 100 (by decide)⟩

/-- C2 (counterexample): a result set with an additional row is not an
error — the first row's scalar is returned and the second row discarded,
contradicting the claim that any additional rows make the scan fail. -/
theorem c2_counterexample : runScalar [[5], [7]] = Except.ok 5 := rfl

/-- C2 (amended): the scalar read returns the first column of the first
row.  It fails when the first row does not have exactly one column and on
an empty result, but additional rows beyond the first are silently
discarded rather than treated as an error. -/
theorem c2_scalar_shape (v : Int) (row : List Int) (rest : List (List Int)) :
    runScalar ([v] :: rest) = Except.ok v ∧
    (row.length ≠ 1 → ∃ e, runScalar (row :: rest) = Except.error e) ∧
    runScalar [] = Except.error "sql: no rows in result set" := by
  refine ⟨rfl, ?_, rfl⟩
  intro h
  rcases row with _ | ⟨a, t⟩
  · exact ⟨_, rfl⟩
  · rcases t with _ | ⟨b, t2⟩
    · simp at h
    · exact ⟨_, rfl⟩

/-- C2 (witness): a two-column first row makes the scan fail. -/
theorem c2_witness :
    (([5, 6] : List Int).length ≠ 1) ∧
    (∃ e, runScalar ([5, 6] :: [[7]]) = Except.error e) :=
  ⟨by decide, (c2_scalar_shape 5 [5, 6] [[7]]).2.1 (by decide)⟩

/-- C3 (counterexample): when the rule SQL fails, `evaluateRule` returns
before touching `LastCheck` — at `now = 5` the rule's `last_check` stays
at its old value 0 instead of advancing, contradicting the claim. -/
theorem c3_counterexample :
    (evaluateRule noopEnv 7 sampleRule (Except.error "near SELEC: syntax error") 5 []).outcome
      = Except.error "near SELEC: syntax error" ∧
    sampleRule.lastCheck = 0 ∧
    (evaluateRule noopEnv 7 sampleRule
        (Except.error "near SELEC: syntax error") 5 []).rule.lastCheck ≠ 5 :=
  ⟨rfl, rfl, by decide⟩

/-- C3 (amended): when the scalar scan fails (SQL error or wrong result
shape), the rule is left completely unchanged — `last_check` does NOT
advance, the rule stays enabled, no alert instance is created and no
notification row is written; the error is returned. -/
theorem c3_eval_error_leaves_rule_unchanged (env : TransportEnv) (newId : Int)
    (rule : AlertRule) (qres : Except String (List (List Int))) (e : String)
    (now : Int) (channels : List NotificationChannel)
    (h : scanCount qres = Except.error e) :
    evaluateRule env newId rule qres now channels =
      { rule := rule, fired := none, notifs := [], outcome := Except.error e } := by
  unfold evaluateRule
  rw [h]

/-- C3 (witness): a failing query leaves the sample rule untouched. -/
theorem c3_witness :
    scanCount (Except.error "near SELEC: syntax error") =
      Except.error "near SELEC: syntax error" ∧
    evaluateRule noopEnv 7 sampleRule (Except.error "near SELEC: syntax error") 5 [] =
      { rule := sampleRule, fired := none, notifs := [],
        outcome := Except.error "near SELEC: syntax error" } :=
  ⟨rfl, c3_eval_error_leaves_rule_unchanged noopEnv 7 sampleRule
    (Except.error "near SELEC: syntax error") "near SELEC: syntax error" 5 [] rfl⟩

/-- C4 (counterexample): a `slack` channel whose config lacks
`webhook_url` is accepted by `AddNotificationChannel`: both the in-memory
cache and the persisted table gain the channel, contradicting the claim
that the add is rejected with both left unchanged. -/
theorem c4_counterexample :
    (([("channel", "#alerts")] : List (String × String)).lookup "webhook_url" = none) ∧
    addNotificationChannel ⟨[], [], 1⟩
        ⟨0, "Team Slack", "slack", [("channel", "#alerts")], true⟩ =
      Except.ok ⟨[⟨1, "Team Slack", "slack", [("channel", "#alerts")], true⟩],
                 [⟨1, "Team Slack", "slack", [("channel", "#alerts")], true⟩], 2⟩ ∧
    ([⟨1, "Team Slack", "slack", [("channel", "#alerts")], true⟩] :
        List NotificationChannel) ≠ [] :=
  ⟨rfl, rfl, by decide⟩

/-- C4 (amended): `AddNotificationChannel` performs no config-key
validation.  For any channel whose name is not already taken — including
one missing every required key for its kind — the add succeeds and the
channel is appended to both the in-memory cache and the persisted table.
Missing required keys surface only later, at dispatch time. -/
theorem c4_add_channel_unvalidated (st : EngineChannels) (ch : NotificationChannel)
    (h : st.table.any (fun c => c.name == ch.name) = false) :
    addNotificationChannel st ch =
      Except.ok { channels := st.channels ++ [{ ch with id := st.nextId }],
                  table := st.table ++ [{ ch with id := st.nextId }],
                  nextId := st.nextId + 1 } := by
  simp [addNotificationChannel, h]

/-- C4 (witness): adding a key-less slack channel to an empty state
succeeds and changes both sets. -/
theorem c4_witness :
    (([] : List NotificationChannel).any (fun c => c.name == "Team Slack") = false) ∧
    addNotificationChannel ⟨[], [], 1⟩ ⟨0, "Team Slack", "slack", [], true⟩ =
      Except.ok ⟨[⟨1, "Team Slack", "slack", [], true⟩],
                 [⟨1, "Team Slack", "slack", [], true⟩], 2⟩ :=
  ⟨rfl, c4_add_channel_unvalidated ⟨[], [], 1⟩ ⟨0, "Team Slack", "slack", [], true⟩ rfl⟩

/-- `containsSeq` decides contiguous-subsequence containment. -/
theorem containsSeq_iff (needle hay : List Char) :
    containsSeq needle hay = true ↔ needle <:+: hay := by
  induction hay with
  | nil =>
    simp [containsSeq, List.isEmpty_iff]
  | cons c rest ih =>
    simp [containsSeq, Bool.or_eq_true, ih, List.isPrefixOf_iff_prefix,
      List.infix_cons_iff]

/-- C5 (counterexample): the query `SELECT COUNT(*) FROM nowhere` does not
contain `WHERE` as a token, yet the composed SQL joins the time predicate
with `AND` (because `NOWHERE` contains the substring `WHERE`) — refuting
the claim that `AND` is used if and only if the WHERE token is present. -/
theorem c5_counterexample :
    containsWhereToken "SELECT COUNT(*) FROM nowhere" = false ∧
    buildTimeQuery "SELECT COUNT(*) FROM nowhere" "5m" 0 =
      "SELECT COUNT(*) FROM nowhere" ++ " AND timestamp >= \x27" ++
        formatTimestamp (0 - windowDuration "5m") ++ "\x27" :=
  ⟨by decide, rfl⟩

/-- C5 (amended): the composed SQL appends the window predicate with
`AND` exactly when the uppercased query contains `WHERE` as a substring
(not as a token), and with `WHERE` otherwise; the check is
case-insensitive. -/
theorem c5_where_substring (q w : String) (now : Int) :
    (containsWhere q = true ↔ "WHERE".toList <:+: (q.toList.map Char.toUpper)) ∧
    (containsWhere q = true →
      buildTimeQuery q w now =
        q ++ " AND timestamp >= \x27" ++
          formatTimestamp (now - windowDuration w) ++ "\x27") ∧
    (containsWhere q = false →
      buildTimeQuery q w now =
        q ++ " WHERE timestamp >= \x27" ++
          formatTimestamp (now - windowDuration w) ++ "\x27") := by
  refine ⟨containsSeq_iff _ _, ?_, ?_⟩
  · intro h
    simp [buildTimeQuery, h]
  · intro h
    simp [buildTimeQuery, h]

/-- C5 (witness): a query that already has a WHERE clause gets the
predicate joined with `AND`. -/
theorem c5_witness :
    containsWhere "SELECT COUNT(*) FROM logs WHERE level = err" = true ∧
    buildTimeQuery "SELECT COUNT(*) FROM logs WHERE level = err" "5m" 0 =
      "SELECT COUNT(*) FROM logs WHERE level = err" ++ " AND timestamp >= \x27" ++
        formatTimestamp (0 - windowDuration "5m") ++ "\x27" :=
  ⟨by decide,
    (c5_where_substring "SELECT COUNT(*) FROM logs WHERE level = err" "5m" 0).2.1
      (by decide)⟩

/-- C6: a successful evaluation fires exactly when the scanned count
reaches the rule's threshold, and every alert instance it creates records
`count ≥ threshold` (with the rule's threshold and the scanned count)
as of its creation. -/
theorem c6_fire_iff_threshold (env : TransportEnv) (newId : Int) (rule : AlertRule)
    (rows : List (List Int)) (count now : Int) (channels : List NotificationChannel)
    (h : runScalar rows = Except.ok count) :
    ((evaluateRule env newId rule (Except.ok rows) now channels).fired.isSome
        ↔ rule.threshold ≤ count) ∧
    (∀ inst,
      (evaluateRule env newId rule (Except.ok rows) now channels).fired = some inst →
        inst.count = count ∧ inst.threshold = rule.threshold ∧
          inst.threshold ≤ inst.count) := by
  have hs : scanCount (Except.ok rows) = Except.ok count := h
  unfold evaluateRule
  rw [hs]
  by_cases ht : rule.threshold ≤ count
  · constructor
    · simp [ht, fireAlert]
    · intro inst hinst
      simp only [ht, if_pos, fireAlert, Option.some_inj] at hinst
      subst hinst
      exact ⟨rfl, rfl, ht⟩
  · constructor
    · simp [ht]
    · intro inst hinst
      simp [ht] at hinst

/-- C6 (witness): the sample rule (threshold 1) fires on a scanned count
of 1. -/
theorem c6_witness :
    runScalar [[1]] = Except.ok 1 ∧
    ((evaluateRule noopEnv 7 sampleRule (Except.ok [[1]]) 5 []).fired.isSome
      ↔ sampleRule.threshold ≤ 1) :=
  ⟨rfl, (c6_fire_iff_threshold noopEnv 7 sampleRule [[1]] 1 5 [] rfl).1⟩

/-- C7: one fire writes exactly one audit row per enabled channel — the
rows' channel ids are precisely the enabled channels' ids in order, every
row references the new alert instance's id, and the number of rows does
not depend on the transport outcomes (so one channel failing cannot
suppress the attempts on the others). -/
theorem c7_fanout_audit (env env2 : TransportEnv) (newId : Int) (rule : AlertRule)
    (count now : Int) (channels : List NotificationChannel) :
    ((fireAlert env newId rule count now channels).notifs.map (fun n => n.channelId)
        = (channels.filter (fun c => c.enabled)).map (fun c => c.id)) ∧
    ((fireAlert env newId rule count now channels).notifs.all
        (fun n => n.alertId == newId) = true) ∧
    ((fireAlert env newId rule count now channels).notifs.length
        = (fireAlert env2 newId rule count now channels).notifs.length) := by
  refine ⟨?_, ?_, ?_⟩
  · simp only [fireAlert, List.map_map]
    exact List.map_congr_left (fun a _ => rfl)
  · simp only [fireAlert, List.all_eq_true]
    intro n hn
    rcases List.mem_map.mp hn with ⟨ch, _, hch⟩
    subst hch
    exact beq_self_eq_true newId
  · simp [fireAlert]

/-- C8: when the rule's window string does not parse, evaluation uses a
five-minute window — the composed SQL equals the one composed with window
`5m`, whose parsed duration is exactly five minutes. -/
theorem c8_unparsable_window_defaults (w : String) (h : parseDuration w = none) :
    (∀ q : String, ∀ now : Int, buildTimeQuery q w now = buildTimeQuery q "5m" now) ∧
    windowDuration w = fiveMinutes ∧
    parseDuration "5m" = some fiveMinutes := by
  have h5 : parseDuration "5m" = some fiveMinutes := by decide
  refine ⟨?_, ?_, h5⟩
  · intro q now
    simp [buildTimeQuery, windowDuration, h, h5]
  · simp [windowDuration, h]

/-- C8 (witness): the unparsable window `banana` composes the same SQL as
the window `5m`. -/
theorem c8_witness :
    parseDuration "banana" = none ∧
    buildTimeQuery "SELECT COUNT(*) FROM logs" "banana" 0 =
      buildTimeQuery "SELECT COUNT(*) FROM logs" "5m" 0 :=
  ⟨by decide,
    (c8_unparsable_window_defaults "banana" (by decide)).1
      "SELECT COUNT(*) FROM logs" 0⟩

/-- C9: the webhook color and human severity label follow the claimed
ratio bands exactly: `ratio ≥ 3` gives critical/red (`danger` /
`🔴 Critical`), `2 ≤ ratio < 3` gives high/orange (`warning` /
`🟠 High`), `1.5 ≤ ratio < 2` gives medium/yellow (`#ffcc00` /
`🟡 Medium`), and `ratio < 1.5` gives low/green (`good` / `🟢 Low`);
stated for positive thresholds, where the ratio is well defined. -/
theorem c9_severity_bands (count threshold : Int) (_pos : 0 < threshold) :
    ((getAlertColor count threshold = "danger" ∧
        getSeverityText count threshold = "🔴 Critical")
      ↔ (3 : ℚ) ≤ (count : ℚ) / (threshold : ℚ)) ∧
    ((getAlertColor count threshold = "warning" ∧
        getSeverityText count threshold = "🟠 High")
      ↔ ((2 : ℚ) ≤ (count : ℚ) / (threshold : ℚ) ∧
          (count : ℚ) / (threshold : ℚ) < 3)) ∧
    ((getAlertColor count threshold = "#ffcc00" ∧
        getSeverityText count threshold = "🟡 Medium")
      ↔ ((3 / 2 : ℚ) ≤ (count : ℚ) / (threshold : ℚ) ∧
          (count : ℚ) / (threshold : ℚ) < 2)) ∧
    ((getAlertColor count threshold = "good" ∧
        getSeverityText count threshold = "🟢 Low")
      ↔ (count : ℚ) / (threshold : ℚ) < 3 / 2) := by
  unfold getAlertColor getSeverityText
  split_ifs with h3 h2 h15 <;>
    refine ⟨?_, ?_, ?_, ?_⟩ <;>
      simp <;>
        first
          | linarith
          | (intro hx; linarith)
          | (constructor <;> linarith)

/-- C9 (witness): count 6 against threshold 2 (ratio 3) lands in the
critical/red band. -/
theorem c9_witness :
    0 < (2 : Int) ∧
    ((getAlertColor 6 2 = "danger" ∧ getSeverityText 6 2 = "🔴 Critical")
      ↔ (3 : ℚ) ≤ ((6 : Int) : ℚ) / ((2 : Int) : ℚ)) :=
  ⟨by decide, (c9_severity_bands 6 2 (by decide)).1⟩

/-- C10: dispatching to an enabled channel of unknown type attempts no
transport — the result is the same for every transport environment — and
still records exactly one audit row for the (alert, channel) pair, with
`success = false` and an error message naming the unknown type. -/
theorem c10_unknown_type_audited (env env2 : TransportEnv) (inst : AlertInstance)
    (ch : NotificationChannel)
    (h : ch.type ∉ (["desktop", "slack", "email", "shell"] : List String)) :
    sendNotification env inst ch =
      { alertId := inst.id, channelId := ch.id, success := false,
        errorMessage := "unknown notification type: " ++ ch.type } ∧
    sendNotification env inst ch = sendNotification env2 inst ch := by
  simp only [List.mem_cons, List.not_mem_nil, or_false, not_or] at h
  obtain ⟨h1, h2, h3, h4⟩ := h
  constructor <;> simp [sendNotification, logNotification, h1, h2, h3, h4]

/-- C10 (witness): an enabled channel of type `sms` yields one failed
audit row naming the type, with no transport consulted. -/
theorem c10_witness :
    ((⟨4, "pager", "sms", [], true⟩ : NotificationChannel).type
        ∉ (["desktop", "slack", "email", "shell"] : List String)) ∧
    sendNotification noopEnv sampleInstance ⟨4, "pager", "sms", [], true⟩ =
      { alertId := sampleInstance.id, channelId := 4, success := false,
        errorMessage := "unknown notification type: " ++ "sms" } :=
  ⟨by decide,
    (c10_unknown_type_audited noopEnv noopEnv sampleInstance
      ⟨4, "pager", "sms", [], true⟩ (by decide)).1⟩
